import Mathlib

/-!
Verification of the session-and-dispatch core of matrix-commander-rs
(`src/mclient.rs`) against its design specification.

The Rust source is shallowly embedded: each `pub(crate) async fn` of
`mclient.rs` becomes a pure Lean function.  Network and filesystem effects
performed through the external collaborators (the matrix-sdk client, `std::fs`,
the `ruma` id parser, the `mime_guess` crate) are modelled as explicit
environment records carrying the outcome each collaborator would produce, so
every embedded function is a deterministic function of its arguments and that
environment.  A Rust `panic!`/`unwrap` failure is a distinct `Outcome.panic`
constructor, kept separate from the typed `Error` results.
-/

namespace Mclient

/-- The `Error` enum of main.rs, as used by mclient.rs.  Only the variants
mclient.rs constructs explicitly are named; errors of the external
collaborators propagated with the `?` operator are carried opaquely in the
pass-through constructors `Matrix` (matrix-sdk errors) and `Io`
(std::io errors), following the spec's "underlying transport/store errors
passed through opaquely". -/
inductive Error where
  | NotLoggedIn
  | LoginFailed
  | InvalidRoom
  | InvalidClientConnection
  | InvalidFile
  | Matrix (e : String)
  | Io (e : String)
deriving DecidableEq, Repr

/-- Result of running one embedded Rust function: a normal value, a typed
error, or a Rust panic (e.g. `Result::unwrap` on an `Err` value). -/
inductive Outcome (α : Type) where
  | ok (a : α)
  | err (e : Error)
  | panic (msg : String)
deriving DecidableEq, Repr

/-- The message Rust's `Result::unwrap` panics with. -/
def unwrapPanic : String := "called Result::unwrap() on an Err value"

/-! ## Message content construction (mclient.rs lines 276-308) -/

/-- Which ruma message-type wrapper `message` selects (lines 290-308). -/
inductive MsgVariant where
  | notice
  | emote
  | text
deriving DecidableEq, Repr

/-- The room-message content `message` builds and sends: the chosen wrapper,
the body string, and whether the body was passed to the ruma `markdown`
constructor (`true`) or the `plain` constructor (`false`). -/
structure MsgContent where
  variant : MsgVariant
  body : String
  markdownRendered : Bool
deriving DecidableEq, Repr

/-- Rust `str::ends_with('\n')` on the accumulated format string. -/
def endsWithNewline (s : String) : Bool :=
  match s.data.getLast? with
  | some c => c = '\n'
  | none => false

/-- The fenced code block built in `message` when `code` is set
(lines 277-284): triple backtick, newline, the message, a newline unless the
string already ends with one, closing triple backtick. -/
def fencedCode (msg : String) : String :=
  let fmt := "```" ++ "\n" ++ msg
  let fmt := if endsWithNewline fmt then fmt else fmt ++ "\n"
  fmt ++ "```"

/-- Lines 276-308 of mclient.rs: compute `(nmsg, md)` from the `code` and
`markdown` flags, then wrap in Notice/Emote/Text with markdown or plain
rendering according to `md`. -/
def messageContent (msg : String) (code markdown notice emote : Bool) :
    MsgContent :=
  let p := if code then (fencedCode msg, true) else (msg, markdown)
  let nmsg := p.1
  let md := p.2
  if notice then ⟨.notice, nmsg, md⟩
  else if emote then ⟨.emote, nmsg, md⟩
  else ⟨.text, nmsg, md⟩

/-! ## Room id parsing (external collaborator `ruma::RoomId::parse`) -/

/-- Model of `ruma::RoomId::parse`: a room identifier is accepted when it
carries the `!` sigil and a `:` separator before the server name, and is
rejected otherwise.  `message` and `file` call this through
`RoomId::parse(room).unwrap()`. -/
def roomIdParse (s : String) : Option String :=
  match s.data with
  | [] => none
  | c :: rest => if c = '!' && rest.contains ':' then some s else none

/-! ## message (mclient.rs lines 263-319) -/

/-- Environment for a message dispatch: the rooms the client has joined
(`Client::get_joined_room` returns a handle exactly for these) and the
outcome of the network send (`none` is success, `some e` a matrix-sdk
error). -/
structure DispatchEnv where
  joinedRooms : List String
  sendResult : Option String
deriving DecidableEq, Repr

/-- mclient.rs `message` (lines 263-319).  Returns the sent content on
success.  Order of operations follows the source: client check, content
construction, `RoomId::parse(room).unwrap()` (a parse failure panics),
`get_joined_room(..).ok_or(Error::InvalidRoom)?`, then the network send whose
failure propagates via `?`. -/
def message (client : Except Error Unit) (msg room : String)
    (code markdown notice emote : Bool) (env : DispatchEnv) :
    Outcome MsgContent :=
  match client with
  | .error _ => .err .InvalidClientConnection
  | .ok _ =>
    let content := messageContent msg code markdown notice emote
    match roomIdParse room with
    | none => .panic unwrapPanic
    | some proom =>
      if env.joinedRooms.contains proom then
        match env.sendResult with
        | some e => .err (.Matrix e)
        | none => .ok content
      else .err .InvalidRoom

/-! ## Path helpers (external collaborators `std::path::Path`, `mime_guess`) -/

/-- Split a character list on a separator, keeping empty segments, as Rust's
component / extension splitting does at the character level. -/
def splitOnChar (sep : Char) : List Char → List (List Char)
  | [] => [[]]
  | c :: cs =>
    let r := splitOnChar sep cs
    if c = sep then [] :: r
    else
      match r with
      | [] => [[c]]
      | h :: t => (c :: h) :: t

/-- Model of Rust `Path::file_name` on a path string: the last path
component, skipping empty components and `.`, and `none` when the path is
empty or ends in `..`. -/
def fileNameOf (p : String) : Option String :=
  let comps := (splitOnChar '/' p.data).filter fun c => !(c.isEmpty || c = ['.'])
  match comps.getLast? with
  | none => none
  | some last => if last = ['.', '.'] then none else some (String.mk last)

/-- Model of Rust `Path::extension`: the part of the file name after the last
`.`, with no extension when the file name has no `.` or the only `.` is the
leading one of a hidden file. -/
def extensionOf (p : String) : Option String :=
  match fileNameOf p with
  | none => none
  | some fn =>
    match splitOnChar '.' fn.data with
    | [] => none
    | [_] => none
    | first :: rest =>
      if first.isEmpty && rest.length = 1 then none
      else (rest.getLast?).map String.mk

/-- Model of the `mime_guess` crate's extension table, restricted to a
representative set of registered extensions (matched case-insensitively, as
the crate does). -/
def mimeGuessDB : List (String × String) :=
  [("png", "image/png"), ("jpg", "image/jpeg"), ("jpeg", "image/jpeg"),
   ("gif", "image/gif"), ("txt", "text/plain"), ("pdf", "application/pdf"),
   ("json", "application/json"), ("html", "text/html"), ("mp4", "video/mp4"),
   ("mp3", "audio/mpeg"), ("svg", "image/svg+xml")]

/-- Model of `mime_guess::from_path(..).first()`: look the file extension up
in the table; `none` when the path has no extension or the extension is not
registered. -/
def mimeGuessFromPath (p : String) : Option String :=
  match extensionOf p with
  | none => none
  | some e => mimeGuessDB.lookup (String.mk (e.data.map Char.toLower))

/-- The MIME resolution expression of `file` (mclient.rs lines 346-348):
`mime.as_ref().unwrap_or(&mime_guess::from_path(&filename)
.first_or(mime::APPLICATION_OCTET_STREAM))`. -/
def resolvedMime (mime : Option String) (p : String) : String :=
  match mime with
  | some m => m
  | none =>
    match mimeGuessFromPath p with
    | some g => g
    | none => "application/octet-stream"

/-- The attachment label expression of `file` (lines 340-344): the explicit
`label`, else the file name of `filename`, else `Error::InvalidFile`. -/
def attachmentLabel (label : Option String) (filename : String) :
    Option String :=
  match label with
  | some l => some l
  | none => fileNameOf filename

/-! ## file (mclient.rs lines 322-354) -/

/-- Environment for a file dispatch: joined rooms, the outcome of
`fs::read(&filename)` (bytes or an io error), and the outcome of the network
`send_attachment` call. -/
structure FileEnv where
  joinedRooms : List String
  readResult : Except String (List Nat)
  sendResult : Option String
deriving Repr

/-- mclient.rs `file` (lines 322-354).  Returns the sent attachment's
`(label, mime)` pair on success.  Order of operations follows the source:
client check, `fs::read(&filename)?`, `RoomId::parse(room).unwrap()` (a parse
failure panics), `get_joined_room(..).ok_or(Error::InvalidRoom)?`, label
fallback failing with `Error::InvalidFile`, MIME fallback, then the network
send whose failure propagates via `?`. -/
def file (client : Except Error Unit) (filename room : String)
    (label : Option String) (mime : Option String) (env : FileEnv) :
    Outcome (String × String) :=
  match client with
  | .error _ => .err .InvalidClientConnection
  | .ok _ =>
    match env.readResult with
    | .error e => .err (.Io e)
    | .ok _data =>
      match roomIdParse room with
      | none => .panic unwrapPanic
      | some proom =>
        if env.joinedRooms.contains proom then
          match attachmentLabel label filename with
          | none => .err .InvalidFile
          | some lbl =>
            match env.sendResult with
            | some e => .err (.Matrix e)
            | none => .ok (lbl, resolvedMime mime filename)
        else .err .InvalidRoom

/-! ## sync_once (mclient.rs lines 209-225) -/

/-- The `Sync` mode enum from main.rs as used by mclient.rs: `off` (no
syncing) or `full` (one bounded sync round). -/
inductive Sync where
  | off
  | full
deriving DecidableEq, Repr

/-- mclient.rs `sync_once` (lines 209-225).  `syncCall` is the external
matrix-sdk `Client::sync_once` collaborator, mapping the timeout it was
invoked with to its outcome (`none` success, `some e` a timeout/transport
error).  The second component of the result records every network sync call
performed, each with the timeout it was given. -/
def sync_once (timeout : Nat) (stype : Sync)
    (syncCall : Nat → Option String) : Except Error Unit × List Nat :=
  match stype with
  | .off => (.ok (), [])
  | .full =>
    match syncCall timeout with
    | some e => (.error (.Matrix e), [timeout])
    | none => (.ok (), [timeout])

/-! ## restore_login (mclient.rs lines 53-71) -/

/-- Environment for `restore_login`: whether the credentials file exists at
the configured path, the outcome of `Credentials::load` (from main.rs, not in
scope here: carried abstractly as `none` success / `some e` its error), the
outcome of matrix-sdk `Client::restore_login` (a pass-through matrix error on
failure), the configured sync mode and timeout, and the matrix-sdk sync
collaborator. -/
structure RestoreEnv where
  credsFilePresent : Bool
  loadResult : Option Error
  restoreLoginResult : Option String
  timeout : Nat
  syncMode : Sync
  syncCall : Nat → Option String

/-- What a `restore_login` run produced: its result, whether the credentials
file is still present afterwards, and whether any homeserver sync round was
attempted. -/
structure RestoreOut where
  result : Except Error Unit
  credsFilePresentAfter : Bool
  homeserverSyncAttempted : Bool
deriving Repr

/-- mclient.rs `restore_login` (lines 53-71): when the credentials file
exists, load it, build the client, replay the session with
`client.restore_login(..)?` and validate liveness with `sync_once(..)?`; all
failures propagate with `?` and nothing ever removes the credentials file.
When the file does not exist, return `Error::NotLoggedIn` at once, with no
network activity. -/
def restore_login (env : RestoreEnv) : RestoreOut :=
  if env.credsFilePresent then
    match env.loadResult with
    | some e => ⟨.error e, true, false⟩
    | none =>
      match env.restoreLoginResult with
      | some e => ⟨.error (.Matrix e), true, false⟩
      | none =>
        let r := sync_once env.timeout env.syncMode env.syncCall
        ⟨r.1, true, !r.2.isEmpty⟩
  else ⟨.error .NotLoggedIn, false, false⟩

/-! ## logout and logout_server (mclient.rs lines 159-206) -/

/-- mclient.rs `logout_server` (lines 197-206): attempt the server-side
logout; a failure is logged (reported) but the function returns `Ok(())`
either way.  The boolean records whether a server failure was reported. -/
def logout_server (serverLogoutResult : Option String) :
    Except Error Unit × Bool :=
  match serverLogoutResult with
  | some _ => (.ok (), true)
  | none => (.ok (), false)

/-- Environment for `logout`: whether the client connected, the outcome of
the server logout round-trip, whether the credentials file exists
(`credentials_exist`), and the outcomes of `fs::remove_file` and
`fs::remove_dir_all`. -/
structure LogoutEnv where
  clientOk : Bool
  serverLogoutResult : Option String
  credsExist : Bool
  removeFileResult : Option String
  removeDirResult : Option String
deriving DecidableEq, Repr

/-- What a `logout` run produced: its result and, for each cleanup step,
whether it was attempted and whether its failure was reported (logged). -/
structure LogoutOut where
  result : Except Error Unit
  serverLogoutAttempted : Bool
  serverFailureReported : Bool
  removeFileAttempted : Bool
  fileFailureReported : Bool
  removeDirAttempted : Bool
  dirFailureReported : Bool
deriving Repr

/-- The local-cleanup tail of `logout` (lines 165-193): remove the
credentials file when it exists (logging failure), then always remove the
sled store directory (logging failure), then return `Ok(())`. -/
def logoutLocal (env : LogoutEnv) (serverAttempted serverReported : Bool) :
    LogoutOut where
  result := .ok ()
  serverLogoutAttempted := serverAttempted
  serverFailureReported := serverReported
  removeFileAttempted := env.credsExist
  fileFailureReported := env.credsExist && env.removeFileResult.isSome
  removeDirAttempted := true
  dirFailureReported := env.removeDirResult.isSome

/-- mclient.rs `logout` (lines 159-194): when the client is connected, call
`logout_server(..)?` (which never yields an error), then do the local
cleanup unconditionally. -/
def logout (env : LogoutEnv) : LogoutOut :=
  if env.clientOk then
    match logout_server env.serverLogoutResult with
    | (.error e, rep) => ⟨.error e, true, rep, false, false, false, false⟩
    | (.ok _, rep) => logoutLocal env true rep
  else logoutLocal env false false

/-! ## verify and devices (mclient.rs lines 146-156 and 244-260) -/

/-- mclient.rs `verify` (lines 146-156): on a connected client run the
emoji-verification sync (`emoji_verify::sync`, an external module here,
whose outcome is the `emojiSyncResult` parameter); on a failed/absent client
return `Error::NotLoggedIn`. -/
def verify (client : Except Error Unit) (emojiSyncResult : Option Error) :
    Except Error Unit :=
  match client with
  | .ok _ =>
    match emojiSyncResult with
    | some e => .error e
    | none => .ok ()
  | .error _ => .error .NotLoggedIn

/-- mclient.rs `devices` (lines 244-260): on a connected client list the
devices (`devicesResult` is the outcome of the matrix-sdk `devices()` call);
on a failed/absent client return `Error::NotLoggedIn`. -/
def devices (client : Except Error Unit)
    (devicesResult : Except String (List (String × Option String))) :
    Except Error Unit :=
  match client with
  | .ok _ =>
    match devicesResult with
    | .error e => .error (.Matrix e)
    | .ok _ => .ok ()
  | .error _ => .error .NotLoggedIn

/-! ## Verification state machine

Modelled from the spec: the SAS emoji verification controller lives in
`emoji_verify.rs`, which mclient.rs pulls in via `mod emoji_verify` but which
is not part of the sources in scope.  The state machine below follows the
spec's section 4.4 word for word: states
`Idle → Requested → KeysExchanged → EmojiPresented → Confirmed → Done` with a
terminal `Aborted` reachable from any non-terminal state on remote
cancellation, local mismatch rejection, or timeout, each abort cause carried
as a distinct signal. -/

/-- Why a verification attempt aborted; the rejection signal is distinct
from timeout, remote cancellation and protocol faults. -/
inductive AbortSignal where
  | rejected
  | timedOut
  | remoteCancelled
  | protocolFault
deriving DecidableEq, Repr

/-- Modelled from the spec: the states of the SAS verification machine of
`emoji_verify.rs` (spec section 4.4). -/
inductive VerifState where
  | Idle
  | Requested
  | KeysExchanged
  | EmojiPresented
  | Confirmed
  | Done
  | Aborted (sig : AbortSignal)
deriving DecidableEq, Repr

/-- Modelled from the spec: the inbound events driving the verification
machine. -/
inductive VerifEvent where
  | requestReceived (accepted : Bool)
  | keysExchangedOk
  | keysExchangeFailed
  | emojiDerived
  | operatorConfirm
  | operatorReject
  | bothConfirmationsExchanged
  | remoteCancel
  | timeoutExpired
deriving DecidableEq, Repr

/-- Modelled from the spec: one transition of the verification machine.
Terminal states absorb every event; any non-terminal state aborts on remote
cancellation or timeout; the named transitions follow spec section 4.4,
with an operator rejection at `EmojiPresented` landing in
`Aborted rejected`. -/
def verifStep : VerifState → VerifEvent → VerifState
  | .Done, _ => .Done
  | .Aborted s, _ => .Aborted s
  | _, .remoteCancel => .Aborted .remoteCancelled
  | _, .timeoutExpired => .Aborted .timedOut
  | .Idle, .requestReceived true => .Requested
  | .Idle, .requestReceived false => .Idle
  | .Requested, .keysExchangedOk => .KeysExchanged
  | .Requested, .keysExchangeFailed => .Aborted .protocolFault
  | .KeysExchanged, .emojiDerived => .EmojiPresented
  | .EmojiPresented, .operatorConfirm => .Confirmed
  | .EmojiPresented, .operatorReject => .Aborted .rejected
  | .Confirmed, .bothConfirmationsExchanged => .Done
  | s, _ => s

/-- Run the verification machine over a list of inbound events. -/
def verifRun (s : VerifState) (evs : List VerifEvent) : VerifState :=
  evs.foldl verifStep s

/-- Modelled from the spec: the verification process returns success exactly
from `Done` (spec: "this is the only state from which the process returns
success"). -/
def verifSuccess : VerifState → Bool
  | .Done => true
  | _ => false

/-! ## Claim theorems -/

/-- C1 counterexample: at `code=true, markdown=true` the content `message`
builds for the dispatch is markdown-rendered (`md` is forced to `true` on the
code path, lines 276-285), refuting the claim that the fenced block is
rendered as plain, never-markdown text. -/
theorem code_forces_markdown_cex :
    (messageContent "hello" true true false false).markdownRendered = true
    ∧ (messageContent "hello" true true false false).body =
        "```" ++ "\n" ++ "hello" ++ "\n" ++ "```" :=
  ⟨rfl, rfl⟩

/-- C1 (amended): for every message dispatch with `code=true` the content is
the fenced code block and is always markdown-rendered, regardless of the
`markdown` flag (code forces markdown rendering, the opposite of forcing
plain rendering); and whenever `message` succeeds, the sent content is
exactly that constructed content. -/
theorem code_block_forces_markdown (msg : String)
    (markdown notice emote : Bool) :
    ((messageContent msg true markdown notice emote).markdownRendered = true
      ∧ (messageContent msg true markdown notice emote).body = fencedCode msg)
    ∧ ∀ room : String, ∀ env : DispatchEnv, ∀ c : MsgContent,
        message (.ok ()) msg room true markdown notice emote env = .ok c →
        c = messageContent msg true markdown notice emote := by
  refine ⟨by cases notice <;> cases emote <;> exact ⟨rfl, rfl⟩, ?_⟩
  intro room env c h
  simp only [message] at h
  rcases hp : roomIdParse room with _ | proom <;> rw [hp] at h <;>
    dsimp only at h
  · exact Outcome.noConfusion h
  · by_cases hj : env.joinedRooms.contains proom = true
    · rw [if_pos hj] at h
      rcases hs : env.sendResult with _ | e <;> rw [hs] at h
      · exact (Outcome.ok.inj h).symm
      · exact Outcome.noConfusion h
    · rw [if_neg hj] at h
      exact Outcome.noConfusion h

/-- C1 witness: the amended theorem applied at a concrete dispatch. -/
theorem code_block_forces_markdown_witness :
    (messageContent "hello" true true false false).markdownRendered = true
    ∧ MsgContent.mk .text (fencedCode "hello") true =
        messageContent "hello" true true false false :=
  ⟨(code_block_forces_markdown "hello" true false false).1.1,
   (code_block_forces_markdown "hello" true false false).2 "!r:s"
     ⟨["!r:s"], none⟩ ⟨.text, fencedCode "hello", true⟩ rfl⟩

/-- C2 counterexample: on a connected client, a malformed room identifier
makes both `message` and `file` panic (the source calls
`RoomId::parse(room).unwrap()`), instead of returning `Error::InvalidRoom`
as the claim states. -/
theorem malformed_room_panics_cex :
    message (.ok ()) "hi" "not-a-room-id" false false false false
        ⟨[], none⟩ = .panic unwrapPanic
    ∧ file (.ok ()) "f.txt" "not-a-room-id" none none
        ⟨[], .ok [], none⟩ = .panic unwrapPanic :=
  ⟨rfl, rfl⟩

/-- C2 (amended): on a connected client, a room identifier that parses but
does not resolve to a joined room yields `Error::InvalidRoom`, for both
`message` and `file`; a malformed identifier, by contrast, causes a panic
via `unwrap` rather than `Error::InvalidRoom`. -/
theorem room_resolution_amended (msg room r : String) (c m n em : Bool)
    (env : DispatchEnv) (hp : roomIdParse room = some r)
    (hj : env.joinedRooms.contains r = false) :
    message (.ok ()) msg room c m n em env = .err .InvalidRoom
    ∧ (∀ badroom : String, roomIdParse badroom = none →
        message (.ok ()) msg badroom c m n em env = .panic unwrapPanic)
    ∧ ∀ fn : String, ∀ lbl mi : Option String, ∀ fenv : FileEnv,
        ∀ data : List Nat, fenv.readResult = .ok data →
        fenv.joinedRooms.contains r = false →
        file (.ok ()) fn room lbl mi fenv = .err .InvalidRoom := by
  refine ⟨?_, ?_, ?_⟩
  · simp only [message]
    rw [hp]
    dsimp only
    rw [if_neg]
    rw [hj]
    exact Bool.false_ne_true
  · intro badroom hb
    simp only [message]
    rw [hb]
  · intro fn lbl mi fenv data hread hjf
    simp only [file]
    rw [hread]
    dsimp only
    rw [hp]
    dsimp only
    rw [if_neg]
    rw [hjf]
    exact Bool.false_ne_true

/-- C2 witness: the amended theorem applied at the spec's own scenario input
`room = "!unknown:server"` with no joined rooms. -/
theorem room_resolution_amended_witness :
    message (.ok ()) "hi" "!unknown:server" false false false false
        ⟨[], none⟩ = .err .InvalidRoom
    ∧ file (.ok ()) "f.txt" "!unknown:server" none none
        ⟨[], .ok [], none⟩ = .err .InvalidRoom :=
  ⟨(room_resolution_amended "hi" "!unknown:server" "!unknown:server"
      false false false false ⟨[], none⟩ rfl rfl).1,
   (room_resolution_amended "hi" "!unknown:server" "!unknown:server"
      false false false false ⟨[], none⟩ rfl rfl).2.2 "f.txt" none none
      ⟨[], .ok [], none⟩ [] rfl rfl⟩

/-- C3 counterexample: a restore whose validating sync is rejected by the
homeserver returns the pass-through matrix-sdk error (propagated by `?`),
not `Error::LoginFailed` as the claim states; the credentials file is left
in place. -/
theorem restore_failure_passthrough_cex :
    (restore_login ⟨true, none, none, 30, .full,
        fun _ => some "connection refused"⟩).result =
      .error (.Matrix "connection refused")
    ∧ (restore_login ⟨true, none, none, 30, .full,
        fun _ => some "connection refused"⟩).credsFilePresentAfter = true :=
  ⟨rfl, rfl⟩

/-- C3 (amended): when the credentials file exists, a restore that fails at
the session-replay step or at the validating sync surfaces the underlying
matrix-sdk error passed through opaquely (not `Error::LoginFailed`), and the
local credentials file is left untouched in every case — restore never
deletes credentials on failure. -/
theorem restore_failure_amended (env : RestoreEnv)
    (hp : env.credsFilePresent = true) :
    (restore_login env).credsFilePresentAfter = true
    ∧ (∀ e : String, env.loadResult = none →
        env.restoreLoginResult = some e →
        (restore_login env).result = .error (.Matrix e))
    ∧ ∀ e : String, env.loadResult = none →
        env.restoreLoginResult = none → env.syncMode = .full →
        env.syncCall env.timeout = some e →
        (restore_login env).result = .error (.Matrix e) := by
  refine ⟨?_, ?_, ?_⟩
  · simp only [restore_login, hp, if_true]
    rcases env.loadResult with _ | e
    · rcases env.restoreLoginResult with _ | e
      · rfl
      · rfl
    · rfl
  · intro e hl hr
    simp only [restore_login, hp, if_true, hl, hr]
  · intro e hl hr hm hs
    simp only [restore_login, hp, if_true, hl, hr, sync_once, hm, hs]

/-- C3 witness: the amended theorem applied at a concrete rejected-token
restore. -/
theorem restore_failure_amended_witness :
    (restore_login ⟨true, none, some "invalid access token", 30, .off,
        fun _ => none⟩).result = .error (.Matrix "invalid access token")
    ∧ (restore_login ⟨true, none, some "invalid access token", 30, .off,
        fun _ => none⟩).credsFilePresentAfter = true :=
  ⟨(restore_failure_amended ⟨true, none, some "invalid access token", 30,
      .off, fun _ => none⟩ rfl).2.1 "invalid access token" rfl rfl,
   (restore_failure_amended ⟨true, none, some "invalid access token", 30,
      .off, fun _ => none⟩ rfl).1⟩

/-- C4: a message or file dispatch on a failed/absent client returns
`Error::InvalidClientConnection` outright.  The equality holds for every
room string (including malformed ones, which would panic after room
resolution) and every environment (including ones whose network send would
fail), so the error is produced before any room resolution or network
activity. -/
theorem dispatch_fail_fast (e : Error) (msg room fn : String)
    (c m n em : Bool) (env : DispatchEnv) (lbl mi : Option String)
    (fenv : FileEnv) :
    message (.error e) msg room c m n em env = .err .InvalidClientConnection
    ∧ file (.error e) fn room lbl mi fenv = .err .InvalidClientConnection :=
  ⟨rfl, rfl⟩

/-- C5: `sync_once` with mode `Off` performs no network sync call and
returns success; with mode `Full` it performs exactly one sync call carrying
the given timeout, propagates a timeout/transport failure as an error, and
returns success exactly when that one call succeeds. -/
theorem sync_once_modes :
    (∀ t : Nat, ∀ f : Nat → Option String,
        sync_once t .off f = (.ok (), []))
    ∧ (∀ t : Nat, ∀ f : Nat → Option String,
        (sync_once t .full f).2 = [t])
    ∧ (∀ t : Nat, ∀ f : Nat → Option String, ∀ e : String, f t = some e →
        sync_once t .full f = (.error (.Matrix e), [t]))
    ∧ ∀ t : Nat, ∀ f : Nat → Option String, f t = none →
        sync_once t .full f = (.ok (), [t]) := by
  refine ⟨fun t f => rfl, fun t f => ?_, fun t f e h => ?_, fun t f h => ?_⟩
  · simp only [sync_once]
    rcases f t with _ | e <;> rfl
  · simp only [sync_once, h]
  · simp only [sync_once, h]

/-- C5 witness: the theorem applied at a concrete timeout and failing sync
collaborator. -/
theorem sync_once_modes_witness :
    sync_once 30 .off (fun _ => some "request timed out") = (.ok (), [])
    ∧ sync_once 30 .full (fun _ => some "request timed out") =
        (.error (.Matrix "request timed out"), [30]) :=
  ⟨sync_once_modes.1 30 (fun _ => some "request timed out"),
   sync_once_modes.2.2.1 30 (fun _ => some "request timed out")
     "request timed out" rfl⟩

/-- C6: on a connected client with an existing credentials file, `logout`
returns success whatever the server round-trip, file removal and directory
removal outcomes are; both local removals are attempted, and each of the
three failures is reported exactly when its own operation fails,
independently of the others. -/
theorem logout_best_effort (env : LogoutEnv) (hc : env.clientOk = true)
    (he : env.credsExist = true) :
    (logout env).result = .ok ()
    ∧ (logout env).serverLogoutAttempted = true
    ∧ (logout env).serverFailureReported = env.serverLogoutResult.isSome
    ∧ (logout env).removeFileAttempted = true
    ∧ (logout env).fileFailureReported = env.removeFileResult.isSome
    ∧ (logout env).removeDirAttempted = true
    ∧ (logout env).dirFailureReported = env.removeDirResult.isSome := by
  simp only [logout, hc, if_true, logout_server]
  rcases env with ⟨co, sr, ce, rf, rd⟩
  simp only at he
  rcases sr with _ | s <;>
    simp [logoutLocal, he]

/-- C6 witness: the theorem applied at a logout where the server call and
both local removals all fail. -/
theorem logout_best_effort_witness :
    (logout ⟨true, some "network fault", true, some "permission denied",
        some "directory busy"⟩).result = .ok ()
    ∧ (logout ⟨true, some "network fault", true, some "permission denied",
        some "directory busy"⟩).removeFileAttempted = true
    ∧ (logout ⟨true, some "network fault", true, some "permission denied",
        some "directory busy"⟩).removeDirAttempted = true
    ∧ (logout ⟨true, some "network fault", true, some "permission denied",
        some "directory busy"⟩).serverFailureReported = true :=
  ⟨(logout_best_effort ⟨true, some "network fault", true,
      some "permission denied", some "directory busy"⟩ rfl rfl).1,
   (logout_best_effort ⟨true, some "network fault", true,
      some "permission denied", some "directory busy"⟩ rfl rfl).2.2.2.1,
   (logout_best_effort ⟨true, some "network fault", true,
      some "permission denied", some "directory busy"⟩ rfl rfl).2.2.2.2.2.1,
   (logout_best_effort ⟨true, some "network fault", true,
      some "permission denied", some "directory busy"⟩ rfl rfl).2.2.1⟩

/-- C7: the attachment MIME type of a file dispatch falls back, in order,
to the explicit caller-supplied type, else the content-type guess from the
file path, else application/octet-stream; a `.png` path with no explicit
type resolves to image/png, an unrecognized extension to
application/octet-stream, and every successful `file` dispatch sends exactly
this resolved MIME type. -/
theorem file_mime_fallback :
    (∀ p m : String, resolvedMime (some m) p = m)
    ∧ (∀ p t : String, mimeGuessFromPath p = some t →
        resolvedMime none p = t)
    ∧ (∀ p : String, mimeGuessFromPath p = none →
        resolvedMime none p = "application/octet-stream")
    ∧ resolvedMime none "photo.png" = "image/png"
    ∧ resolvedMime none "photo.xyz" = "application/octet-stream"
    ∧ ∀ client : Except Error Unit, ∀ fn room : String,
        ∀ lbl mi : Option String, ∀ env : FileEnv, ∀ pr : String × String,
        file client fn room lbl mi env = .ok pr →
        pr.2 = resolvedMime mi fn := by
  refine ⟨fun p m => rfl, fun p t h => ?_, fun p h => ?_, rfl, rfl, ?_⟩
  · simp only [resolvedMime, h]
  · simp only [resolvedMime, h]
  · intro client fn room lbl mi env pr h
    rcases client with e | u
    · exact Outcome.noConfusion h
    · simp only [file] at h
      rcases hread : env.readResult with e | data <;> rw [hread] at h <;>
        dsimp only at h
      · exact Outcome.noConfusion h
      · rcases hp : roomIdParse room with _ | proom <;> rw [hp] at h <;>
          dsimp only at h
        · exact Outcome.noConfusion h
        · by_cases hj : env.joinedRooms.contains proom = true
          · rw [if_pos hj] at h
            rcases hl : attachmentLabel lbl fn with _ | l <;>
              rw [hl] at h <;> dsimp only at h
            · exact Outcome.noConfusion h
            · rcases hs : env.sendResult with _ | e <;> rw [hs] at h <;>
                dsimp only at h
              · rw [← Outcome.ok.inj h]
              · exact Outcome.noConfusion h
          · rw [if_neg hj] at h
            exact Outcome.noConfusion h

/-- C7 witness: the theorem applied at the spec's two MIME scenarios and at
a concrete successful file dispatch. -/
theorem file_mime_fallback_witness :
    resolvedMime none "photo.png" = "image/png"
    ∧ resolvedMime none "photo.xyz" = "application/octet-stream"
    ∧ (("lbl", "image/png") : String × String).2 =
        resolvedMime none "photo.png" :=
  ⟨file_mime_fallback.2.1 "photo.png" "image/png" rfl,
   file_mime_fallback.2.2.1 "photo.xyz" rfl,
   file_mime_fallback.2.2.2.2.2 (.ok ()) "photo.png" "!r:s" (some "lbl")
     none ⟨["!r:s"], .ok [], none⟩ ("lbl", "image/png") rfl⟩

/-- C8: when no credentials file exists at the configured path,
`restore_login` returns `Error::NotLoggedIn` without attempting any
homeserver sync round; the present-but-rejected cases (session replay
rejected, or the validating sync rejected) instead produce a pass-through
matrix-sdk error, a distinct failure kind. -/
theorem restore_no_credentials (env : RestoreEnv)
    (h : env.credsFilePresent = false) :
    (restore_login env).result = .error .NotLoggedIn
    ∧ (restore_login env).homeserverSyncAttempted = false
    ∧ (∀ env2 : RestoreEnv, ∀ e : String, env2.credsFilePresent = true →
        env2.loadResult = none → env2.restoreLoginResult = some e →
        (restore_login env2).result = .error (.Matrix e))
    ∧ ∀ env2 : RestoreEnv, ∀ e : String, env2.credsFilePresent = true →
        env2.loadResult = none → env2.restoreLoginResult = none →
        env2.syncMode = .full → env2.syncCall env2.timeout = some e →
        (restore_login env2).result = .error (.Matrix e) := by
  refine ⟨?_, ?_, ?_, ?_⟩
  · simp only [restore_login, h, Bool.false_eq_true, if_false]
  · simp only [restore_login, h, Bool.false_eq_true, if_false]
  · intro env2 e hp hl hr
    simp only [restore_login, hp, if_true, hl, hr]
  · intro env2 e hp hl hr hm hs
    simp only [restore_login, hp, if_true, hl, hr, sync_once, hm, hs]

/-- C8 witness: the theorem applied at an absent credentials file, plus the
distinct rejected-session outcome at a concrete present-but-rejected
environment. -/
theorem restore_no_credentials_witness :
    (restore_login ⟨false, none, none, 30, .full, fun _ => none⟩).result =
      .error .NotLoggedIn
    ∧ (restore_login ⟨false, none, none, 30, .full,
        fun _ => none⟩).homeserverSyncAttempted = false
    ∧ (restore_login ⟨true, none, some "token rejected", 30, .full,
        fun _ => none⟩).result = .error (.Matrix "token rejected") :=
  ⟨(restore_no_credentials ⟨false, none, none, 30, .full,
      fun _ => none⟩ rfl).1,
   (restore_no_credentials ⟨false, none, none, 30, .full,
      fun _ => none⟩ rfl).2.1,
   (restore_no_credentials ⟨false, none, none, 30, .full,
      fun _ => none⟩ rfl).2.2.1 ⟨true, none, some "token rejected", 30,
      .full, fun _ => none⟩ "token rejected" rfl rfl rfl⟩

/-- Helper for C9: the `Aborted` state absorbs every later event. -/
theorem verifRun_aborted (sig : AbortSignal) (evs : List VerifEvent) :
    verifRun (.Aborted sig) evs = .Aborted sig := by
  induction evs with
  | nil => rfl
  | cons e evs ih =>
    have hstep : verifStep (.Aborted sig) e = .Aborted sig := by
      cases e <;> rfl
    simpa [verifRun, hstep] using ih

/-- C9: an operator rejection at `EmojiPresented` transitions to `Aborted`
with the rejection signal; from there no event sequence ever reaches `Done`
(so the run can never report success); and `Done` is the only state from
which verification returns success. -/
theorem verification_reject_never_done :
    verifStep .EmojiPresented .operatorReject = .Aborted .rejected
    ∧ (∀ evs : List VerifEvent,
        verifRun (.Aborted .rejected) evs = .Aborted .rejected)
    ∧ (∀ evs : List VerifEvent,
        verifSuccess (verifRun (verifStep .EmojiPresented .operatorReject)
          evs) = false)
    ∧ (∀ s : VerifState, verifSuccess s = true → s = .Done)
    ∧ verifSuccess .Done = true := by
  refine ⟨rfl, verifRun_aborted .rejected, ?_, ?_, rfl⟩
  · intro evs
    rw [show verifStep .EmojiPresented .operatorReject =
        .Aborted .rejected from rfl, verifRun_aborted]
    rfl
  · intro s hs
    cases s with
    | Done => rfl
    | Aborted sig => exact Bool.noConfusion hs
    | Idle => exact Bool.noConfusion hs
    | Requested => exact Bool.noConfusion hs
    | KeysExchanged => exact Bool.noConfusion hs
    | EmojiPresented => exact Bool.noConfusion hs
    | Confirmed => exact Bool.noConfusion hs

/-- C9 witness: the theorem applied at a concrete event sequence that would
otherwise drive the machine to `Done`, and at the `Done` success state. -/
theorem verification_reject_never_done_witness :
    verifSuccess (verifRun (verifStep .EmojiPresented .operatorReject)
        [.operatorConfirm, .bothConfirmationsExchanged]) = false
    ∧ VerifState.Done = VerifState.Done :=
  ⟨verification_reject_never_done.2.2.1
      [.operatorConfirm, .bothConfirmationsExchanged],
   verification_reject_never_done.2.2.2.1 .Done rfl⟩

/-- C10: on a failed/absent client the two administrative operations
`verify` and `devices` return `Error::NotLoggedIn`, while the two dispatch
operations `message` and `file` return `Error::InvalidClientConnection` —
two different error kinds for a missing session. -/
theorem admin_vs_dispatch_error_kinds (e : Error) (es : Option Error)
    (dres : Except String (List (String × Option String)))
    (msg room fn : String) (c m n em : Bool) (env : DispatchEnv)
    (lbl mi : Option String) (fenv : FileEnv) :
    verify (.error e) es = .error .NotLoggedIn
    ∧ devices (.error e) dres = .error .NotLoggedIn
    ∧ message (.error e) msg room c m n em env =
        .err .InvalidClientConnection
    ∧ file (.error e) fn room lbl mi fenv =
        .err .InvalidClientConnection :=
  ⟨rfl, rfl, rfl, rfl⟩

end Mclient
